import Mathlib

/-!
Verification of the sz_search_flask service and its companion load
generator against their natural-language specification.  The Python
sources (sz_search_flask.py and sz_search_flask_perftest.py) are embedded
shallowly: pure functions become Lean functions, the module-level startup
sequence becomes an explicit function of the environment, and the thread
pool becomes a step relation on a pool-state type.
-/

namespace SzSearchFlask

/-- Universe of Python exception classes relevant to the service.  The
Senzing exception classes are the ones imported by sz_search_flask.py
(lines 37-44); the standard-library classes are the keys of the
EXCEPTION_HTTP_CODES table plus a few subclasses and unrelated classes
used to exercise the fallback scan and the default branch. -/
inductive ExcType where
  | Exception
  | ValueError
  | TypeError
  | JSONDecodeError
  | UnicodeDecodeError
  | KeyError
  | OSError
  | ConnectionError
  | ConnectionRefusedError
  | ConnectionResetError
  | TimeoutError
  | PermissionError
  | FileNotFoundError
  | SzError
  | SzBadInputError
  | SzUnknownDataSourceError
  | SzNotFoundError
  | SzConfigurationError
  | SzReplaceConflictError
  | SzRetryableError
  | SzDatabaseConnectionLostError
  | SzDatabaseTransientError
  | SzRetryTimeoutExceededError
  | SzUnrecoverableError
  | SzDatabaseError
  | SzLicenseError
  | SzNotInitializedError
  | SzUnhandledError
  | SzSdkError
  deriving DecidableEq, Fintype, Repr

/-- Proper ancestors of each exception class, nearest first, as documented
for the Python standard library and the Senzing v4 SDK taxonomy (external
to src/; the service only observes it through isinstance). -/
def strictAncestors : ExcType → List ExcType
  | .Exception => []
  | .ValueError => [.Exception]
  | .TypeError => [.Exception]
  | .JSONDecodeError => [.ValueError, .Exception]
  | .UnicodeDecodeError => [.ValueError, .Exception]
  | .KeyError => [.Exception]
  | .OSError => [.Exception]
  | .ConnectionError => [.OSError, .Exception]
  | .ConnectionRefusedError => [.ConnectionError, .OSError, .Exception]
  | .ConnectionResetError => [.ConnectionError, .OSError, .Exception]
  | .TimeoutError => [.OSError, .Exception]
  | .PermissionError => [.OSError, .Exception]
  | .FileNotFoundError => [.OSError, .Exception]
  | .SzError => [.Exception]
  | .SzBadInputError => [.SzError, .Exception]
  | .SzUnknownDataSourceError => [.SzBadInputError, .SzError, .Exception]
  | .SzNotFoundError => [.SzBadInputError, .SzError, .Exception]
  | .SzConfigurationError => [.SzError, .Exception]
  | .SzReplaceConflictError => [.SzError, .Exception]
  | .SzRetryableError => [.SzError, .Exception]
  | .SzDatabaseConnectionLostError => [.SzRetryableError, .SzError, .Exception]
  | .SzDatabaseTransientError => [.SzRetryableError, .SzError, .Exception]
  | .SzRetryTimeoutExceededError => [.SzRetryableError, .SzError, .Exception]
  | .SzUnrecoverableError => [.SzError, .Exception]
  | .SzDatabaseError => [.SzUnrecoverableError, .SzError, .Exception]
  | .SzLicenseError => [.SzUnrecoverableError, .SzError, .Exception]
  | .SzNotInitializedError => [.SzUnrecoverableError, .SzError, .Exception]
  | .SzUnhandledError => [.SzUnrecoverableError, .SzError, .Exception]
  | .SzSdkError => [.SzError, .Exception]

/-- Python isinstance on our exception universe: an object of exact class
t is an instance of class k when t is k or k is a proper ancestor of t. -/
def isInstanceOf (t k : ExcType) : Bool :=
  t = k || (strictAncestors t).contains k

/-- EXCEPTION_HTTP_CODES table from sz_search_flask.py lines 79-112, as a
list of (exception class, HTTP code) pairs in the dict insertion order,
which Python dicts preserve for iteration. -/
def EXCEPTION_HTTP_CODES : List (ExcType × Nat) :=
  [ (.SzBadInputError, 400),
    (.SzUnknownDataSourceError, 400),
    (.SzNotFoundError, 404),
    (.SzReplaceConflictError, 409),
    (.SzRetryTimeoutExceededError, 408),
    (.SzConfigurationError, 503),
    (.SzNotInitializedError, 503),
    (.SzDatabaseError, 503),
    (.SzDatabaseConnectionLostError, 503),
    (.SzDatabaseTransientError, 503),
    (.SzLicenseError, 503),
    (.SzUnrecoverableError, 500),
    (.SzUnhandledError, 500),
    (.SzRetryableError, 502),
    (.SzSdkError, 502),
    (.SzError, 422),
    (.ValueError, 400),
    (.TypeError, 400),
    (.JSONDecodeError, 400),
    (.ConnectionError, 503),
    (.ConnectionRefusedError, 503),
    (.TimeoutError, 504),
    (.PermissionError, 403),
    (.FileNotFoundError, 404) ]

/-- exception_to_code from sz_search_flask.py lines 118-145: exact-type
lookup in the table, else the first table entry (in insertion order) of
which the error is an instance, else 500. -/
def exception_to_code (err : ExcType) : Nat :=
  match EXCEPTION_HTTP_CODES.find? (fun p => p.1 == err) with
  | some p => p.2
  | none =>
    match EXCEPTION_HTTP_CODES.find? (fun p => isInstanceOf err p.1) with
    | some p => p.2
    | none => 500

/-- A raised Python exception: its exact class and its message text
(what str(err) yields). -/
structure PyExc where
  ty : ExcType
  msg : String
  deriving DecidableEq, Repr

/-- Engine flags token.  sz_search_flask.py only ever passes the single
default token SZ_SEARCH_BY_ATTRIBUTES_DEFAULT_FLAGS (lines 234 and 242). -/
inductive SzEngineFlags where
  | SZ_SEARCH_BY_ATTRIBUTES_DEFAULT_FLAGS
  deriving DecidableEq, Repr

/-- The engine collaborator: search_by_attributes takes the attributes
JSON string, a flags token and a search-profile string, and either
returns a result string or raises. -/
def Engine : Type :=
  String → SzEngineFlags → String → Except PyExc String

/-- Python truthiness fallback `profile or "SEARCH"` from
sz_search_flask.py line 180: None and the empty string are falsy. -/
def py_or (profile : Option String) (d : String) : String :=
  match profile with
  | none => d
  | some s => if s = "" then d else s

/-- process_search from sz_search_flask.py lines 148-186: calls
engine.search_by_attributes with the raw JSON string, the flags and
`profile or "SEARCH"`.  Its except block prints and re-raises the same
exception, so the Except value is unchanged. -/
def process_search (engine : Engine) (search_json : String)
    (engine_flags : SzEngineFlags) (profile : Option String) :
    Except PyExc String :=
  engine search_json engine_flags (py_or profile "SEARCH")

/-- Body of a Flask response: either the raw string a view returned, or
the JSON object rendered by jsonify for an error message. -/
inductive RespBody where
  | raw (s : String)
  | errorJson (msg : String)
  deriving DecidableEq, Repr

/-- A rendered Flask response: status, body, and the Content-Type header. -/
structure FlaskResponse where
  status : Nat
  body : RespBody
  contentType : String
  deriving DecidableEq, Repr

/-- Modelled from the Flask framework (not in src/): returning a plain
str from a view yields a 200 response with that string as body and
Flask's default mimetype text/html, not application/json. -/
def flaskStrResponse (s : String) : FlaskResponse :=
  { status := 200, body := .raw s, contentType := "text/html; charset=utf-8" }

/-- Modelled from the Flask framework (not in src/): `jsonify(obj), code`
yields a response at the given status whose body is the JSON rendering of
the object and whose Content-Type is application/json. -/
def flaskJsonError (code : Nat) (msg : String) : FlaskResponse :=
  { status := code, body := .errorJson msg, contentType := "application/json" }

/-- Outcome of running the /search view: either a rendered response, or
an exception that escaped the handler uncaught. -/
inductive HandlerOutcome where
  | response (r : FlaskResponse)
  | uncaught (e : PyExc)
  deriving DecidableEq, Repr

/-- Rendering of the value the try block of do_search produces: line 261
returns the task result string directly on success; lines 263-266 catch
an exception and return `jsonify(\x7b'error': str(err)\x7d)` at
exception_to_code(err). -/
def renderResult : Except PyExc String → HandlerOutcome
  | .ok result => .response (flaskStrResponse result)
  | .error err => .response (flaskJsonError (exception_to_code err.ty) err.msg)

/-- do_search from sz_search_flask.py lines 192-266.  Inputs: the engine,
the outcome of `request.data.decode()` (line 229, evaluated before the
try block, so a decoding failure propagates), the optional flags query
parameter and the optional profile query parameter.  When the flags
parameter is present, line 238 splits it on the pipe but line 242
reassigns the default token, so the flags forwarded to the pool are the
default token either way.  The try block submits
process_search(sz_engine, user_request, flags, profile) to the executor
and blocks on task.result(), which re-raises any exception the task
raised; the except block renders it. -/
def do_search (engine : Engine) (decodeRes : Except PyExc String)
    (flagsParam profileParam : Option String) : HandlerOutcome :=
  match decodeRes with
  | .error e => .uncaught e
  | .ok user_request =>
    let flags := SzEngineFlags.SZ_SEARCH_BY_ATTRIBUTES_DEFAULT_FLAGS
    let _unused_user_flags := flagsParam.map (fun s => s.splitOn "|")
    renderResult (process_search engine user_request flags profileParam)

/-- Worker-count resolution from sz_search_flask.py lines 311-314:
`int(os.getenv("SENZING_THREADS_PER_PROCESS", 0))`, and a zero or unset
value is replaced by None so that ThreadPoolExecutor picks its default.
The environment value is modelled already parsed to a Nat. -/
def resolve_max_workers (env : Option Nat) : Option Nat :=
  let max_workers := env.getD 0
  if max_workers = 0 then none else some max_workers

/-- Modelled from the spec: ThreadPoolExecutor default worker count when
max_workers is None, min(32, os.cpu_count() + 4) (also quoted in the
source comment at line 313). -/
def defaultMaxWorkers (cpu : Nat) : Nat :=
  min 32 (cpu + 4)

/-- Effective worker-slot count W of the dispatch pool for a given
environment value and cpu count. -/
def effectiveWorkers (env : Option Nat) (cpu : Nat) : Nat :=
  (resolve_max_workers env).getD (defaultMaxWorkers cpu)

/-- Modelled from the spec: state of the bounded dispatch pool — how many
submitted tasks are queued and how many are executing against the engine
handle.  ThreadPoolExecutor itself is library code not under src/. -/
structure PoolState where
  queued : Nat
  running : Nat
  deriving DecidableEq, Repr

/-- Operations observable on the dispatch pool: a request handler submits
a task, an idle worker starts a queued task, a worker finishes a task. -/
inductive PoolOp where
  | submit
  | start
  | finish
  deriving DecidableEq, Repr

/-- Modelled from the spec: one transition of the dispatch pool with W
worker slots.  submit always enqueues (never rejects); start moves a
queued task to running only when fewer than W tasks are running; finish
retires a running task.  none marks a transition that cannot fire. -/
def poolStep (W : Nat) (s : PoolState) : PoolOp → Option PoolState
  | .submit => some { s with queued := s.queued + 1 }
  | .start =>
    if s.running < W && s.queued > 0 then
      some { queued := s.queued - 1, running := s.running + 1 }
    else none
  | .finish =>
    if s.running > 0 then some { s with running := s.running - 1 } else none

/-- Execution of a sequence of pool operations from the empty pool;
transitions that cannot fire are skipped. -/
def poolExec (W : Nat) (ops : List PoolOp) : PoolState :=
  ops.foldl (fun s op => (poolStep W s op).getD s) { queued := 0, running := 0 }

/-- Abstract handle to the initialized Senzing engine. -/
inductive EngineHandle where
  | handle
  deriving DecidableEq, Repr

/-- Name of the required configuration environment variable
(sz_search_flask.py line 283). -/
def SENZING_CONFIG_VAR : String :=
  "SENZING_ENGINE_CONFIGURATION_JSON"

/-- Diagnostic printed to stderr when the configuration is missing
(sz_search_flask.py lines 285-291). -/
def missingConfigDiag : String :=
  "The environment variable " ++ SENZING_CONFIG_VAR ++
  " must be set with a proper JSON configuration.\n" ++
  "Please see https://senzing.zendesk.com/hc/en-us/articles/" ++
  "360038774134-G2Module-Configuration-and-the-Senzing-API"

/-- Process state after a successful module initialization. -/
structure AppState where
  engine : EngineHandle
  maxWorkers : Option Nat
  deriving DecidableEq, Repr

/-- Module-level initialization from sz_search_flask.py lines 278-324 as
a function of the environment: reads SENZING_ENGINE_CONFIGURATION_JSON;
when it is unset or empty, prints the diagnostic to stderr and calls
exit(-1); otherwise builds the factory and engine (the factory
collaborator is a parameter; a failure there is caught by the outer
except, printed, and also ends in exit(-1)) and resolves the executor
worker count.  The error value carries the exit code and the stderr
diagnostic. -/
def module_init (factory : String → Except PyExc EngineHandle)
    (engine_config : Option String) (threadsEnv : Option Nat) :
    Except (Int × String) AppState :=
  match engine_config with
  | none => .error (-1, missingConfigDiag)
  | some cfg =>
    if cfg = "" then .error (-1, missingConfigDiag)
    else
      match factory cfg with
      | .error e => .error (-1, e.msg)
      | .ok h => .ok { engine := h, maxWorkers := resolve_max_workers threadsEnv }

/-- Observable fate of the process at startup: either it exited during
module initialization (before any listener exists), or module
initialization succeeded and app.run may bind the listener. -/
inductive StartOutcome where
  | exited (code : Int) (diagnostic : String)
  | serving (st : AppState)
  deriving DecidableEq, Repr

/-- Process startup: module initialization runs at import time, strictly
before the `app.run` call at sz_search_flask.py line 352, so an exit
during initialization happens before any listener is bound. -/
def app_start (factory : String → Except PyExc EngineHandle)
    (engine_config : Option String) (threadsEnv : Option Nat) : StartOutcome :=
  match module_init factory engine_config threadsEnv with
  | .error (code, diag) => .exited code diag
  | .ok st => .serving st

end SzSearchFlask

namespace SzSearchFlaskPerftest

/-- Wall-clock instants of one send_request execution, in order of the
events of sz_search_flask_perftest.py lines 89-160: the time.time() read
at line 109 (before the payload is serialized), the end of serialization
(when requests.post begins network work), the arrival of the response
headers, the arrival of the full response body (requests.post returns
only then, since the call does not stream), and the time.time() read
after the call returns (line 134, or line 153 on the failure path). -/
structure ClockTrace where
  tStart : ℚ
  tSerDone : ℚ
  tHeadersDone : ℚ
  tBodyDone : ℚ
  tEnd : ℚ
  deriving DecidableEq, Repr

/-- Outcome of the requests.post call at lines 126-131: a response with a
status code and a content string, or a transport-level
RequestException carrying a message. -/
inductive PostOutcome where
  | resp (status : Nat) (content : String)
  | transportFailure (msg : String)
  deriving DecidableEq, Repr

/-- Result record returned by send_request (lines 143-148 on success,
lines 156-160 on failure). -/
structure SendResult where
  success : Bool
  request_time : ℚ
  status_code : Option Nat
  response_size : Option Nat
  errorMsg : Option String
  deriving DecidableEq, Repr

/-- Modelled from the requests library (not in src/): str(e) for the
HTTPError raised by response.raise_for_status names the offending status
code; it is derived from the status line, never from the response body. -/
def httpErrorMessage (status : Nat) : String :=
  "HTTPError for status " ++ toString status

/-- response.raise_for_status (line 139): raises HTTPError exactly for
4xx and 5xx status codes; 1xx, 2xx and 3xx codes do not raise. -/
def raise_for_status_error (status : Nat) : Option String :=
  if 400 ≤ status then some (httpErrorMessage status) else none

/-- send_request from sz_search_flask_perftest.py lines 89-160 as a
function of the clock trace and the post outcome.  request_time is always
the difference of the two time.time() reads (tEnd - tStart); the reads
bracket serialization and the full network exchange, not just the network
call.  RequestException (transport failure or raise_for_status) is caught
and turned into a success := false record carrying str(e); it never
propagates.  Otherwise the record is success := true with
len(response.content). -/
def send_request (tr : ClockTrace) (outcome : PostOutcome) : SendResult :=
  match outcome with
  | .transportFailure m =>
      { success := false, request_time := tr.tEnd - tr.tStart,
        status_code := none, response_size := none, errorMsg := some m }
  | .resp status content =>
      match raise_for_status_error status with
      | some m =>
          { success := false, request_time := tr.tEnd - tr.tStart,
            status_code := none, response_size := none, errorMsg := some m }
      | none =>
          { success := true, request_time := tr.tEnd - tr.tStart,
            status_code := some status, response_size := some content.length,
            errorMsg := none }

/-- Observable outcome of one process_file run: the records submitted to
send_request (one HTTP POST each), the line numbers logged as invalid
JSON, the error message printed when the file cannot be opened, and the
boolean return value. -/
structure PerfRun where
  submitted : List String
  badLines : List Nat
  errorReport : Option String
  returned : Bool
  deriving DecidableEq, Repr

/-- The line loop of process_file (sz_search_flask_perftest.py lines
207-225): lines are enumerated from 1; each is stripped; an empty result
is skipped; a stripped line that fails to parse is logged by number and
skipped; a parsed record is submitted.  The parse collaborator
(orjson.loads / json.loads) is a parameter returning the parsed record or
none on JSONDecodeError. -/
def process_file_lines (parse : String → Option String) :
    Nat → List String → List String × List Nat
  | _, [] => ([], [])
  | line_num, line :: rest =>
    let stripped := line.trim
    if stripped = "" then
      process_file_lines parse (line_num + 1) rest
    else
      match parse stripped with
      | some record =>
        let (subs, bads) := process_file_lines parse (line_num + 1) rest
        (record :: subs, bads)
      | none =>
        let (subs, bads) := process_file_lines parse (line_num + 1) rest
        (subs, line_num :: bads)

/-- process_file from sz_search_flask_perftest.py lines 162-259 as a
function of the file path and contents (none models FileNotFoundError on
open): a missing file is caught at line 250, prints the error naming the
file (line 251) and returns False having submitted nothing; otherwise
every line is processed as in process_file_lines, the final report is
printed, and True is returned. -/
def process_file (file_path : String) (fileLines : Option (List String))
    (parse : String → Option String) : PerfRun :=
  match fileLines with
  | none =>
    { submitted := [], badLines := [],
      errorReport := some ("ERROR: File not found: " ++ file_path),
      returned := false }
  | some lines =>
    let (subs, bads) := process_file_lines parse 1 lines
    { submitted := subs, badLines := bads, errorReport := none, returned := true }

/-- statistics.mean: the arithmetic mean. -/
def pyMean (l : List ℚ) : ℚ :=
  l.sum / l.length

/-- Square of statistics.stdev (the sample standard deviation): the
sample variance with Bessel correction.  The square root needed for the
stdev itself leaves ℚ; no claim depends on the value, only on whether
the statistic is computed at all. -/
def sampleVariance (l : List ℚ) : ℚ :=
  ((l.map (fun x => (x - pyMean l) ^ 2)).sum) / ((l.length : ℚ) - 1)

/-- Python sorted() on the latency samples (line 304). -/
def pySorted (l : List ℚ) : List ℚ :=
  l.insertionSort (· ≤ ·)

/-- p50_idx from line 307: int(n * 0.50).  The operand is nonnegative,
so Python int() truncation is the floor. -/
def p50_idx (n : Nat) : Nat := ⌊(n : ℚ) * 0.50⌋₊

/-- p90_idx from line 308: int(n * 0.90). -/
def p90_idx (n : Nat) : Nat := ⌊(n : ℚ) * 0.90⌋₊

/-- p95_idx from line 309: int(n * 0.95). -/
def p95_idx (n : Nat) : Nat := ⌊(n : ℚ) * 0.95⌋₊

/-- p99_idx from line 310: int(n * 0.99). -/
def p99_idx (n : Nat) : Nat := ⌊(n : ℚ) * 0.99⌋₊

/-- The timing statistics block of the final report (lines 294-315):
which latency statistics are printed and with which values.  stdevSq is
none when the standard deviation line is not printed. -/
structure TimingStats where
  meanT : ℚ
  minT : ℚ
  maxT : ℚ
  stdevSq : Option ℚ
  p50 : ℚ
  p90 : ℚ
  p95 : ℚ
  p99 : ℚ
  deriving DecidableEq, Repr

/-- print_final_report from sz_search_flask_perftest.py lines 273-315,
restricted to its timing-statistics section: none when request_times is
empty (line 294 guard); otherwise mean/min/max always, the standard
deviation only under the `len(self.request_times) > 1` guard of line
300, and the four percentiles of the sorted sample list at the
nearest-rank indices. -/
def print_final_report_stats (request_times : List ℚ) : Option TimingStats :=
  if request_times.isEmpty then none
  else
    let sorted_times := pySorted request_times
    let n := sorted_times.length
    some
      { meanT := pyMean request_times
        minT := (request_times.min?).getD 0
        maxT := (request_times.max?).getD 0
        stdevSq :=
          if 1 < request_times.length then some (sampleVariance request_times)
          else none
        p50 := sorted_times.getD (p50_idx n) 0
        p90 := sorted_times.getD (p90_idx n) 0
        p95 := sorted_times.getD (p95_idx n) 0
        p99 := sorted_times.getD (p99_idx n) 0 }

end SzSearchFlaskPerftest

namespace SzSearchFlask

theorem poolStep_getD_running_le (W : Nat) (s : PoolState) (op : PoolOp)
    (h : s.running ≤ W) : ((poolStep W s op).getD s).running ≤ W := by
  cases op with
  | submit => simpa [poolStep] using h
  | start =>
    by_cases hc : s.running < W ∧ s.queued > 0
    · simp [poolStep, hc.1, hc.2]
      omega
    · have : ¬ (decide (s.running < W) && decide (s.queued > 0)) = true := by
        simpa [Bool.and_eq_true, decide_eq_true_eq] using hc
      simpa [poolStep, this] using h
  | finish =>
    by_cases hc : s.running > 0
    · simp [poolStep, hc]
      omega
    · simpa [poolStep, hc] using h

theorem poolFold_running_le (W : Nat) (ops : List PoolOp) (s : PoolState)
    (h : s.running ≤ W) :
    (ops.foldl (fun s op => (poolStep W s op).getD s) s).running ≤ W := by
  induction ops generalizing s with
  | nil => exact h
  | cons op rest ih =>
    exact ih _ (poolStep_getD_running_le W s op h)

/-- C1: exception_to_code always returns a code in
\x7b400,403,404,408,409,422,500,502,503,504\x7d, via exact-type lookup in
EXCEPTION_HTTP_CODES (codes as listed in the claim), else the first
instance match in the table's insertion order (exercised here by
UnicodeDecodeError ↦ 400 via ValueError and ConnectionResetError ↦ 503
via ConnectionError), else 500 (exercised by Exception, KeyError and
OSError, which match no table entry). -/
theorem classifier_code_range :
    (∀ t : ExcType,
      exception_to_code t ∈ ([400, 403, 404, 408, 409, 422, 500, 502, 503, 504] : List Nat)) ∧
    exception_to_code .SzBadInputError = 400 ∧
    exception_to_code .SzUnknownDataSourceError = 400 ∧
    exception_to_code .SzNotFoundError = 404 ∧
    exception_to_code .SzReplaceConflictError = 409 ∧
    exception_to_code .SzRetryTimeoutExceededError = 408 ∧
    exception_to_code .SzConfigurationError = 503 ∧
    exception_to_code .SzNotInitializedError = 503 ∧
    exception_to_code .SzDatabaseError = 503 ∧
    exception_to_code .SzDatabaseConnectionLostError = 503 ∧
    exception_to_code .SzDatabaseTransientError = 503 ∧
    exception_to_code .SzLicenseError = 503 ∧
    exception_to_code .SzUnrecoverableError = 500 ∧
    exception_to_code .SzUnhandledError = 500 ∧
    exception_to_code .SzRetryableError = 502 ∧
    exception_to_code .SzSdkError = 502 ∧
    exception_to_code .SzError = 422 ∧
    exception_to_code .ValueError = 400 ∧
    exception_to_code .TypeError = 400 ∧
    exception_to_code .JSONDecodeError = 400 ∧
    exception_to_code .ConnectionError = 503 ∧
    exception_to_code .ConnectionRefusedError = 503 ∧
    exception_to_code .TimeoutError = 504 ∧
    exception_to_code .PermissionError = 403 ∧
    exception_to_code .FileNotFoundError = 404 ∧
    exception_to_code .UnicodeDecodeError = 400 ∧
    exception_to_code .ConnectionResetError = 503 ∧
    exception_to_code .Exception = 500 ∧
    exception_to_code .KeyError = 500 ∧
    exception_to_code .OSError = 500 := by
  decide

/-- C2: with the dispatch pool sized to W = effectiveWorkers slots (the
worker-count environment value, or the ThreadPoolExecutor default when
that value is unset or zero), any sequence of submit/start/finish events
keeps the number of tasks running against the engine handle at or below
W, and submit always enqueues without rejecting. -/
theorem dispatch_pool_bounds_concurrency :
    (∀ (env : Option Nat) (cpu : Nat) (ops : List PoolOp),
      (poolExec (effectiveWorkers env cpu) ops).running ≤ effectiveWorkers env cpu) ∧
    (∀ (W : Nat) (s : PoolState),
      poolStep W s .submit = some { s with queued := s.queued + 1 }) ∧
    (∀ cpu : Nat, effectiveWorkers none cpu = defaultMaxWorkers cpu) ∧
    (∀ cpu : Nat, effectiveWorkers (some 0) cpu = defaultMaxWorkers cpu) ∧
    (∀ (cpu w : Nat), effectiveWorkers (some (w + 1)) cpu = w + 1) := by
  refine ⟨?_, ?_, ?_, ?_, ?_⟩
  · intro env cpu ops
    exact poolFold_running_le _ ops _ (Nat.zero_le _)
  · intro W s
    rfl
  · intro cpu
    rfl
  · intro cpu
    rfl
  · intro cpu w
    simp [effectiveWorkers, resolve_max_workers]

/-- C3 counterexample: a request body that fails to decode as UTF-8
raises at `request.data.decode()` (line 229), which runs before the try
block, so the failure propagates past the endpoint uncaught instead of
producing the classified JSON error response the claim requires. -/
theorem do_search_decode_failure_uncaught :
    do_search (fun _ _ _ => .ok "")
        (.error { ty := .UnicodeDecodeError, msg := "utf-8 codec cannot decode byte" })
        none none =
      .uncaught { ty := .UnicodeDecodeError, msg := "utf-8 codec cannot decode byte" } := by
  rfl

/-- C3 amended: for every request whose body decodes, a failure raised in
the dispatched search task (re-raised by task.result inside the try
block) is caught and answered with status exception_to_code(e) and the
JSON body with only the message text; but a failure raised while decoding
the request body, which happens before the try block, propagates past the
endpoint uncaught. -/
theorem do_search_error_handling_amended :
    ∀ (engine : Engine) (u : String) (fp pp : Option String) (e : PyExc),
      (engine u .SZ_SEARCH_BY_ATTRIBUTES_DEFAULT_FLAGS (py_or pp "SEARCH") = .error e →
        do_search engine (.ok u) fp pp =
          .response (flaskJsonError (exception_to_code e.ty) e.msg)) ∧
      do_search engine (.error e) fp pp = .uncaught e := by
  intro engine u fp pp e
  constructor
  · intro h
    simp [do_search, process_search, renderResult, h]
  · rfl

/-- C3 amended witness: a task failing with SzNotFoundError is answered
with status 404 and the error JSON carrying exactly its message. -/
theorem do_search_error_handling_amended_witness :
    do_search (fun _ _ _ => .error { ty := .SzNotFoundError, msg := "entity not found" })
        (.ok "\x7b\"NAME_FULL\": \"John Smith\"\x7d") none none =
      .response (flaskJsonError 404 "entity not found") :=
  (do_search_error_handling_amended
      (fun _ _ _ => .error { ty := .SzNotFoundError, msg := "entity not found" })
      "\x7b\"NAME_FULL\": \"John Smith\"\x7d" none none
      { ty := .SzNotFoundError, msg := "entity not found" }).1 rfl

/-- C4 counterexample: on a successful engine call returning the result
string, the view returns that plain string, which Flask renders at status
200 with its default mimetype text/html — not the Content-Type
application/json the claim asserts. -/
theorem do_search_success_content_type_counterexample :
    (do_search (fun _ _ _ => .ok "\x7b\"entities\": []\x7d")
        (.ok "\x7b\"NAME_FULL\": \"John Smith\"\x7d") none none =
      .response { status := 200, body := .raw "\x7b\"entities\": []\x7d",
                  contentType := "text/html; charset=utf-8" }) ∧
    "text/html; charset=utf-8" ≠ "application/json" := by
  exact ⟨rfl, by decide⟩

/-- C4 amended: when the engine call succeeds with result string r, the
endpoint responds with status 200 and a body exactly equal to r,
unmodified; the Content-Type is Flask's default for string returns,
text/html with charset utf-8, not application/json. -/
theorem do_search_success_response_amended :
    ∀ (engine : Engine) (u r : String) (fp pp : Option String),
      engine u .SZ_SEARCH_BY_ATTRIBUTES_DEFAULT_FLAGS (py_or pp "SEARCH") = .ok r →
      do_search engine (.ok u) fp pp =
        .response { status := 200, body := .raw r,
                    contentType := "text/html; charset=utf-8" } := by
  intro engine u r fp pp h
  simp [do_search, process_search, renderResult, h, flaskStrResponse]

/-- C4 amended witness: a concrete successful search is answered with
status 200 and the raw result string as body. -/
theorem do_search_success_response_amended_witness :
    do_search (fun _ _ _ => .ok "\x7b\"entities\": []\x7d")
        (.ok "\x7b\"NAME_FULL\": \"Jane Doe\"\x7d") none none =
      .response { status := 200, body := .raw "\x7b\"entities\": []\x7d",
                  contentType := "text/html; charset=utf-8" } :=
  do_search_success_response_amended (fun _ _ _ => .ok "\x7b\"entities\": []\x7d")
    "\x7b\"NAME_FULL\": \"Jane Doe\"\x7d" "\x7b\"entities\": []\x7d" none none rfl

/-- C5: the engine is invoked with exactly the decoded request body,
always with the single default flags token whatever the flags query
parameter holds, and with the profile query value resolved by Python
truthiness: "SEARCH" when the parameter is absent or empty, the given
value otherwise. -/
theorem do_search_forwards_body_flags_profile :
    (∀ (engine : Engine) (u : String) (fp pp : Option String),
      do_search engine (.ok u) fp pp =
        renderResult (engine u .SZ_SEARCH_BY_ATTRIBUTES_DEFAULT_FLAGS (py_or pp "SEARCH"))) ∧
    py_or none "SEARCH" = "SEARCH" ∧
    py_or (some "") "SEARCH" = "SEARCH" ∧
    (∀ p : String, p ≠ "" → py_or (some p) "SEARCH" = p) := by
  refine ⟨fun engine u fp pp => rfl, rfl, by simp [py_or], ?_⟩
  intro p hp
  simp [py_or, hp]

/-- C5 witness: a nonempty profile value is forwarded as given. -/
theorem do_search_forwards_body_flags_profile_witness :
    py_or (some "MINIMAL") "SEARCH" = "MINIMAL" :=
  do_search_forwards_body_flags_profile.2.2.2 "MINIMAL" (by decide)

/-- C6: when SENZING_ENGINE_CONFIGURATION_JSON is unset or empty, startup
ends in exit(-1) with the stderr diagnostic that names the missing
variable, the exit code is non-zero, and the process never reaches the
serving state in which app.run binds a listener. -/
theorem startup_missing_config_exits :
    ∀ (factory : String → Except PyExc EngineHandle) (cfg : Option String)
      (threadsEnv : Option Nat),
      cfg = none ∨ cfg = some "" →
      app_start factory cfg threadsEnv = .exited (-1) missingConfigDiag ∧
      (-1 : Int) ≠ 0 ∧
      SENZING_CONFIG_VAR.data <:+: missingConfigDiag.data ∧
      (∀ st : AppState, app_start factory cfg threadsEnv ≠ .serving st) := by
  intro factory cfg threadsEnv h
  have hexit : app_start factory cfg threadsEnv = .exited (-1) missingConfigDiag := by
    rcases h with h | h <;> subst h <;> rfl
  refine ⟨hexit, by decide, ?_, ?_⟩
  · refine ⟨"The environment variable ".data,
      (" must be set with a proper JSON configuration.\n" ++
        "Please see https://senzing.zendesk.com/hc/en-us/articles/" ++
        "360038774134-G2Module-Configuration-and-the-Senzing-API").data, ?_⟩
    simp [missingConfigDiag, SENZING_CONFIG_VAR]
  · intro st hst
    rw [hexit] at hst
    exact StartOutcome.noConfusion hst

/-- C6 witness: with the variable unset, startup exits with code -1 and
the diagnostic. -/
theorem startup_missing_config_exits_witness :
    app_start (fun _ => .ok .handle) none none = .exited (-1) missingConfigDiag :=
  (startup_missing_config_exits (fun _ => .ok .handle) none none (Or.inl rfl)).1

end SzSearchFlask

namespace SzSearchFlaskPerftest

theorem filterMap_length_eq_filter_isSome {α β : Type} (f : α → Option β) :
    ∀ l : List α, (l.filterMap f).length = (l.filter (fun a => (f a).isSome)).length := by
  intro l
  induction l with
  | nil => rfl
  | cons a rest ih =>
    cases h : f a with
    | none => simp [List.filterMap_cons, List.filter_cons, h, ih]
    | some b => simp [List.filterMap_cons, List.filter_cons, h, ih]

theorem process_file_lines_fst (parse : String → Option String) :
    ∀ (k : Nat) (lines : List String),
      (process_file_lines parse k lines).1 =
        ((lines.map String.trim).filter (fun s => s ≠ "")).filterMap parse := by
  intro k lines
  induction lines generalizing k with
  | nil => rfl
  | cons l rest ih =>
    by_cases h : l.trim = ""
    · simp [process_file_lines, h, List.filter_cons, ih]
    · cases hp : parse l.trim with
      | some r =>
        simp [process_file_lines, h, hp, List.filter_cons, List.filterMap_cons, ih]
      | none =>
        simp [process_file_lines, h, hp, List.filter_cons, List.filterMap_cons, ih]

theorem process_file_lines_snd (parse : String → Option String) :
    ∀ (k : Nat) (lines : List String),
      (process_file_lines parse k lines).2 =
        ((lines.enumFrom k).filter
          (fun p => p.2.trim ≠ "" ∧ (parse p.2.trim).isNone)).map Prod.fst := by
  intro k lines
  induction lines generalizing k with
  | nil => rfl
  | cons l rest ih =>
    by_cases h : l.trim = ""
    · simp [process_file_lines, h, List.enumFrom, List.filter_cons, ih]
    · cases hp : parse l.trim with
      | some r =>
        simp [process_file_lines, h, hp, List.enumFrom, List.filter_cons, ih]
      | none =>
        simp [process_file_lines, h, hp, List.enumFrom, List.filter_cons, ih]

/-- C7 counterexample: a run with exactly one successful request prints
the timing section, yet the standard-deviation line is guarded by
`len(self.request_times) > 1` (line 300) and is not computed, contrary
to the claim that it is computed whenever at least one request
succeeded. -/
theorem final_report_single_sample_no_stdev :
    (print_final_report_stats [(1 : ℚ)]).map TimingStats.stdevSq = some none ∧
    [(1 : ℚ)].length = 1 := by
  exact ⟨rfl, rfl⟩

/-- C7 amended: over a nonempty success-latency list, the final report
computes the mean, minimum, maximum and the 50th/90th/95th/99th
percentiles, where the p-th percentile is the element at index
floor(n × p) of the sorted sample sequence (whose length n equals the
sample count); the standard deviation is computed only when there are at
least two samples.  For 4 sorted samples [0.1,0.2,0.3,0.4] the 50th
percentile index is 2 and the reported value 0.3. -/
theorem final_report_stats_amended :
    (∀ ts : List ℚ, ts ≠ [] →
      ∃ s : TimingStats,
        print_final_report_stats ts = some s ∧
        s.meanT = pyMean ts ∧
        s.minT = (ts.min?).getD 0 ∧
        s.maxT = (ts.max?).getD 0 ∧
        (s.stdevSq.isSome ↔ 2 ≤ ts.length) ∧
        (pySorted ts).length = ts.length ∧
        s.p50 = (pySorted ts).getD (p50_idx (pySorted ts).length) 0 ∧
        s.p90 = (pySorted ts).getD (p90_idx (pySorted ts).length) 0 ∧
        s.p95 = (pySorted ts).getD (p95_idx (pySorted ts).length) 0 ∧
        s.p99 = (pySorted ts).getD (p99_idx (pySorted ts).length) 0) ∧
    p50_idx 4 = 2 ∧
    (print_final_report_stats [(0.1 : ℚ), 0.2, 0.3, 0.4]).map TimingStats.p50 =
      some 0.3 := by
  refine ⟨?_, by with_unfolding_all decide, by with_unfolding_all decide⟩
  intro ts hts
  have hempty : ts.isEmpty = false := by
    cases ts with
    | nil => exact absurd rfl hts
    | cons a l => rfl
  refine ⟨{ meanT := pyMean ts,
            minT := (ts.min?).getD 0,
            maxT := (ts.max?).getD 0,
            stdevSq := if 1 < ts.length then some (sampleVariance ts) else none,
            p50 := (pySorted ts).getD (p50_idx (pySorted ts).length) 0,
            p90 := (pySorted ts).getD (p90_idx (pySorted ts).length) 0,
            p95 := (pySorted ts).getD (p95_idx (pySorted ts).length) 0,
            p99 := (pySorted ts).getD (p99_idx (pySorted ts).length) 0 },
      ?_, rfl, rfl, rfl, ?_, ?_, rfl, rfl, rfl, rfl⟩
  · simp [print_final_report_stats, hempty]
  · by_cases h : 1 < ts.length <;> simp [h] <;> omega
  · simp [pySorted, List.length_insertionSort]

/-- C7 amended witness: the amended statement instantiated at the
single-sample run. -/
theorem final_report_stats_amended_witness :
    ∃ s : TimingStats,
      print_final_report_stats [(1 : ℚ)] = some s ∧
      s.meanT = pyMean [(1 : ℚ)] ∧
      s.minT = ([(1 : ℚ)].min?).getD 0 ∧
      s.maxT = ([(1 : ℚ)].max?).getD 0 ∧
      (s.stdevSq.isSome ↔ 2 ≤ [(1 : ℚ)].length) ∧
      (pySorted [(1 : ℚ)]).length = [(1 : ℚ)].length ∧
      s.p50 = (pySorted [(1 : ℚ)]).getD (p50_idx (pySorted [(1 : ℚ)]).length) 0 ∧
      s.p90 = (pySorted [(1 : ℚ)]).getD (p90_idx (pySorted [(1 : ℚ)]).length) 0 ∧
      s.p95 = (pySorted [(1 : ℚ)]).getD (p95_idx (pySorted [(1 : ℚ)]).length) 0 ∧
      s.p99 = (pySorted [(1 : ℚ)]).getD (p99_idx (pySorted [(1 : ℚ)]).length) 0 :=
  final_report_stats_amended.1 [(1 : ℚ)] (by decide)

/-- C8: a missing input file is caught and reported by an error message
naming the file, and the run returns False having submitted nothing
(process_file stays total: the failure never escapes); a present file is
processed to completion with returned = true and no file error, the
submitted records are exactly the parses of the nonblank lines that
parse (blank lines skipped), the nonblank lines that fail to parse are
logged by their 1-based line numbers — later lines still being processed
— and each well-formed line is submitted exactly once, so the submission
count equals the well-formed line count. -/
theorem process_file_line_handling :
    (∀ (path : String) (parse : String → Option String),
      process_file path none parse =
        { submitted := [], badLines := [],
          errorReport := some ("ERROR: File not found: " ++ path),
          returned := false }) ∧
    (∀ (path : String) (lines : List String) (parse : String → Option String),
      (process_file path (some lines) parse).returned = true ∧
      (process_file path (some lines) parse).errorReport = none ∧
      (process_file path (some lines) parse).submitted =
        ((lines.map String.trim).filter (fun s => s ≠ "")).filterMap parse ∧
      (process_file path (some lines) parse).badLines =
        ((lines.enumFrom 1).filter
          (fun p => p.2.trim ≠ "" ∧ (parse p.2.trim).isNone)).map Prod.fst ∧
      (process_file path (some lines) parse).submitted.length =
        (((lines.map String.trim).filter (fun s => s ≠ "")).filter
          (fun s => (parse s).isSome)).length) := by
  refine ⟨fun path parse => rfl, ?_⟩
  intro path lines parse
  have h2 : (process_file path (some lines) parse).submitted =
      ((lines.map String.trim).filter (fun s => s ≠ "")).filterMap parse := by
    have hb : (process_file path (some lines) parse).submitted =
        (process_file_lines parse 1 lines).1 := rfl
    rw [hb, process_file_lines_fst]
  have h3 : (process_file path (some lines) parse).badLines =
      ((lines.enumFrom 1).filter
        (fun p => p.2.trim ≠ "" ∧ (parse p.2.trim).isNone)).map Prod.fst := by
    have hb : (process_file path (some lines) parse).badLines =
        (process_file_lines parse 1 lines).2 := rfl
    rw [hb, process_file_lines_snd]
  refine ⟨rfl, rfl, h2, h3, ?_⟩
  rw [h2, filterMap_length_eq_filter_isSome]

/-- C9 counterexample: a 304 response is not 2xx, yet raise_for_status
raises only for 4xx and 5xx, so send_request records it as a success,
contrary to the claim that any non-2xx status yields success = False. -/
theorem send_request_304_success_counterexample :
    (send_request { tStart := 0, tSerDone := 1, tHeadersDone := 2, tBodyDone := 3, tEnd := 4 }
        (.resp 304 "not modified")).success = true ∧
    ¬ ((200 : Nat) ≤ 304 ∧ (304 : Nat) < 300) := by
  exact ⟨rfl, by decide⟩

/-- C9 amended: send_request measures elapsed time between the clock
read taken immediately before the record is serialized and the clock
read taken after the HTTP call returns (the call returns only once the
full response is received) or after the failure is caught; a transport
failure or a 4xx/5xx response yields success = False with the error
message retained (for an HTTP error, a message derived from the status
and independent of the response body), and the exception never
propagates; any other response, 2xx included, yields success = True with
the elapsed time and the response size. -/
theorem send_request_amended :
    ∀ (tr : ClockTrace) (outcome : PostOutcome),
      (send_request tr outcome).request_time = tr.tEnd - tr.tStart ∧
      (∀ m : String, outcome = .transportFailure m →
        send_request tr outcome =
          { success := false, request_time := tr.tEnd - tr.tStart,
            status_code := none, response_size := none, errorMsg := some m }) ∧
      (∀ (status : Nat) (content : String),
        outcome = .resp status content → 400 ≤ status →
        send_request tr outcome =
          { success := false, request_time := tr.tEnd - tr.tStart,
            status_code := none, response_size := none,
            errorMsg := some (httpErrorMessage status) }) ∧
      (∀ (status : Nat) (content : String),
        outcome = .resp status content → status < 400 →
        send_request tr outcome =
          { success := true, request_time := tr.tEnd - tr.tStart,
            status_code := some status, response_size := some content.length,
            errorMsg := none }) := by
  intro tr outcome
  refine ⟨?_, ?_, ?_, ?_⟩
  · cases outcome with
    | transportFailure m => rfl
    | resp status content =>
      by_cases h : 400 ≤ status <;>
        simp [send_request, raise_for_status_error, h]
  · intro m hm
    subst hm
    rfl
  · intro status content ho h
    subst ho
    simp [send_request, raise_for_status_error, h]
  · intro status content ho h
    subst ho
    simp [send_request, raise_for_status_error, Nat.not_le.mpr h]

/-- C9 amended witness: a 200 response with a two-byte body is recorded
as a success with the clock difference and size 2. -/
theorem send_request_amended_witness :
    send_request { tStart := 0, tSerDone := 1, tHeadersDone := 2, tBodyDone := 3, tEnd := 5 }
        (.resp 200 "ok") =
      { success := true, request_time := (5 : ℚ) - 0, status_code := some 200,
        response_size := some "ok".length, errorMsg := none } :=
  (send_request_amended
      { tStart := 0, tSerDone := 1, tHeadersDone := 2, tBodyDone := 3, tEnd := 5 }
      (.resp 200 "ok")).2.2.2 200 "ok" rfl (by decide)

theorem natFloor_mul_le_pred (n : Nat) (p : ℚ) (h0 : 0 ≤ p) (h1 : p < 1)
    (hn : 1 ≤ n) : ⌊(n : ℚ) * p⌋₊ ≤ n - 1 := by
  have hn0 : (0 : ℚ) < n := by exact_mod_cast hn
  have hlt : (n : ℚ) * p < n := by nlinarith
  have hfl : ⌊(n : ℚ) * p⌋₊ < n := by
    rw [Nat.floor_lt (by positivity)]
    exact hlt
  omega

/-- C10: for a sample count n ≥ 1, each nearest-rank percentile index
int(n * p) for p in \x7b0.50, 0.90, 0.95, 0.99\x7d is at most n - 1 (and
at least 0, being a Nat), so selection on the sorted sample list never
indexes out of range. -/
theorem percentile_indices_in_range :
    ∀ n : Nat, 1 ≤ n →
      p50_idx n ≤ n - 1 ∧ p90_idx n ≤ n - 1 ∧
      p95_idx n ≤ n - 1 ∧ p99_idx n ≤ n - 1 := by
  intro n hn
  exact ⟨natFloor_mul_le_pred n 0.50 (by norm_num) (by norm_num) hn,
    natFloor_mul_le_pred n 0.90 (by norm_num) (by norm_num) hn,
    natFloor_mul_le_pred n 0.95 (by norm_num) (by norm_num) hn,
    natFloor_mul_le_pred n 0.99 (by norm_num) (by norm_num) hn⟩

/-- C10 witness: the bounds instantiated at four samples. -/
theorem percentile_indices_in_range_witness :
    (1 : Nat) ≤ 4 ∧
      (p50_idx 4 ≤ 3 ∧ p90_idx 4 ≤ 3 ∧ p95_idx 4 ≤ 3 ∧ p99_idx 4 ≤ 3) :=
  ⟨by decide, percentile_indices_in_range 4 (by decide)⟩

end SzSearchFlaskPerftest
